import Mathlib

/-!
Shallow embedding of the LiveTrack habit-notification scheduler.

Sources embedded:
  - src/models/habit.py (the Habit ORM model and its mapped columns)
  - src/core/mixins.py (TimestampMixin: created_at / updated_at)
  - src/models/user.py (the User ORM model, telegram_chat_id)
  - src/schemas/habit_dto.py (HabitCreate / HabitUpdate DTOs)
  - src/queries/habit_queries.py (HabitRepository.create / update / delete,
    select_by_id)
  - src/core/worker.py (send_habit_notification, MAX_TRIES,
    RETRY_DELAY_SECONDS)
  - src/services/telegram_sender.py (send_message: returns a Bool, never
    raises past its boundary)

Modelling conventions: the database is a list of persisted rows; the arq
queue is a list of deferred jobs plus a counter generating fresh job ids;
Python exceptions are explicit (Except / result constructors carrying the
states left behind).  Two pieces of Python/SQLAlchemy semantics matter and
are embedded explicitly, because the repository code exercises both:
  - the declarative constructor Habit(**kwargs) raises TypeError on a
    keyword that is not an attribute of the class;
  - compiling update(Habit).values(...) raises CompileError on a values
    key that is not a mapped column;
  - reading an attribute that was never set on an instance raises
    AttributeError.
The Habit model declares no job-reference column, so all three fire in the
scheduler code paths that touch `job_id`.
-/

namespace LiveTrack

/-- Persisted columns of the `habits` table: the mapped columns declared in
`Habit` (src/models/habit.py) plus the two from `TimestampMixin`
(src/core/mixins.py).  There is no job-reference column. -/
structure HabitRow where
  id : Nat
  user_id : Nat
  name : String
  started_at : Int
  is_active : Bool
  timer_to_notify_in_seconds : Nat
  created_at : Int
  updated_at : Int
deriving DecidableEq, Repr

/-- Persisted columns of the `users` table (src/models/user.py);
`telegram_chat_id` is nullable. -/
structure UserRow where
  id : Nat
  username : String
  email : String
  password_in_hash : String
  is_active_account : Bool
  telegram_chat_id : Option Int
deriving DecidableEq, Repr

/-- The committed database state. `next_habit_id` models the habits
autoincrement primary key assigned at flush time. -/
structure DB where
  habits : List HabitRow
  users : List UserRow
  next_habit_id : Nat
deriving DecidableEq, Repr

/-- An in-memory SQLAlchemy `Habit` instance: the mapped row plus the one
unmapped plain Python attribute the repository code sets (`job_id`).
`job_id_attr = none` means the attribute was never set on the instance, so
reading it raises AttributeError; `some v` means it was set to `v`
(`some none` models an assignment of Python `None`). -/
structure HabitObj where
  row : HabitRow
  job_id_attr : Option (Option String)
deriving DecidableEq, Repr

/-- Python attribute read `habit.job_id`: AttributeError when the
attribute was never set on the instance (the Habit class itself has no
`job_id` attribute to fall back to). -/
def getattr_job_id (h : HabitObj) : Except String (Option String) :=
  match h.job_id_attr with
  | none => Except.error "AttributeError: job_id"
  | some v => Except.ok v

/-- Names of the mapped columns of the Habit model (src/models/habit.py
lines 28-35 plus TimestampMixin). -/
def habitMappedColumns : List String :=
  ["id", "user_id", "name", "started_at", "is_active",
   "timer_to_notify_in_seconds", "created_at", "updated_at"]

/-- Python attributes present on the Habit class: the mapped columns plus
the `duration_days` hybrid property and the `user` relationship. -/
def habitClassAttrs : List String :=
  habitMappedColumns ++ ["duration_days", "user"]

/-- SQLAlchemy `update(Habit).values(...)`: compiling the statement raises
CompileError when a values key is not a mapped column of the model. -/
def compileUpdateValues (keys : List String) : Except String Unit :=
  if keys.all (fun k => habitMappedColumns.contains k) then Except.ok ()
  else Except.error "CompileError: Unconsumed column names"

/-- SQLAlchemy declarative constructor `Habit(**kwargs)`: raises TypeError
on any keyword argument that is not an attribute of the class. -/
def habitConstructorCheck (keys : List String) : Except String Unit :=
  if keys.all (fun k => habitClassAttrs.contains k) then Except.ok ()
  else Except.error "TypeError: invalid keyword argument for Habit"

/-- Python truthiness of an optional string (an unset or empty job id is
falsy). -/
def pyTruthy : Option String → Bool
  | none => false
  | some s => s ≠ ""

/-- Python truthiness of a nullable integer (None and 0 are falsy). -/
def pyTruthyInt : Option Int → Bool
  | none => false
  | some c => c != 0

/-- One deferred arq job: id, task function name, positional habit-id
argument, deferral in seconds, and the `job_try` keyword the handler will
receive (1 when the enqueue call did not pass one, matching the handler's
Python default). -/
structure Job where
  job_id : String
  job_fn : String
  habit_id : Nat
  defer_seconds : Nat
  job_try : Nat
deriving DecidableEq, Repr

/-- The arq queue: pending deferred jobs plus a counter for fresh ids. -/
structure Queue where
  jobs : List Job
  next_id : Nat
deriving DecidableEq, Repr

/-- `arq_pool.enqueue_job(fn, habit_id, _defer_by=..., job_try=...)`:
returns the created job and the grown queue. -/
def enqueue_job (q : Queue) (fn : String) (hid deferS tryN : Nat) :
    Job × Queue :=
  let j : Job := ⟨"job-" ++ toString q.next_id, fn, hid, deferS, tryN⟩
  (j, ⟨q.jobs ++ [j], q.next_id + 1⟩)

/-- `arq_pool.abort_job(job_id)`: removes the job if it is still queued. -/
def abort_job (q : Queue) (jid : String) : Queue :=
  ⟨q.jobs.filter (fun j => j.job_id ≠ jid), q.next_id⟩

/-- `HabitRepository.select_by_id` (src/queries/habit_queries.py lines
56-63): loads the habit scoped by (habit_id, user_id).  A freshly loaded
instance carries no `job_id` attribute. -/
def select_by_id (db : DB) (uid hid : Nat) : Option HabitObj :=
  match db.habits.find? (fun h => h.id == hid && h.user_id == uid) with
  | none => none
  | some r => some ⟨r, none⟩

/-- The `HabitCreate` DTO (src/schemas/habit_dto.py lines 35-46).  The
model keeps both `timer_in_minutes` and the derived
`timer_to_notify_in_seconds`. -/
structure HabitCreate where
  name : String
  is_active : Bool
  timer_in_minutes : Nat
  timer_to_notify_in_seconds : Nat
deriving DecidableEq, Repr

/-- A validated `HabitCreate`: the `convert_minutes_to_seconds` model
validator sets `timer_to_notify_in_seconds = timer_in_minutes * 60`. -/
def mkHabitCreate (name : String) (isActive : Bool) (timerInMinutes : Nat) :
    HabitCreate :=
  ⟨name, isActive, timerInMinutes, timerInMinutes * 60⟩

/-- The keys of `habit_in.model_dump()` for a `HabitCreate`: all four
declared fields, `timer_in_minutes` included. -/
def habitCreateDumpKeys : List String :=
  ["name", "is_active", "timer_in_minutes", "timer_to_notify_in_seconds"]

/-- Result of `HabitRepository.create`: `ok` returns the committed state
and the in-memory instance; `conflict` is the IntegrityError path that
rolls back and returns Python None; `raised` is an exception propagating
to the caller, carrying the states left behind (session closed without
commit, so the database is unchanged). -/
inductive CreateResult where
  | ok (db : DB) (q : Queue) (habit : HabitObj)
  | conflict (db : DB) (q : Queue)
  | raised (db : DB) (q : Queue) (exn : String)
deriving DecidableEq, Repr

/-- `HabitRepository.create` (src/queries/habit_queries.py lines 20-53).
Order of operations follows the source: `Habit(**habit_in.model_dump(),
user_id=...)` is built before the try block (so its TypeError propagates
raw); flush assigns the id and raises IntegrityError when the owner is
missing; if `is_active`, a delivery job is enqueued deferred by
`timer_to_notify_in_seconds` and its id assigned to the instance attribute
`job_id`; then commit.  `enqueue_raises` says whether the queue call
fails; an enqueue failure is not an IntegrityError, so it propagates and
nothing is committed. -/
def HabitRepository.create (db : DB) (q : Queue) (now : Int) (user_id : Nat)
    (habit_in : HabitCreate) (enqueue_raises : Bool) : CreateResult :=
  match habitConstructorCheck (habitCreateDumpKeys ++ ["user_id"]) with
  | Except.error e => CreateResult.raised db q e
  | Except.ok _ =>
    if db.users.all (fun u => u.id != user_id) then
      CreateResult.conflict db q
    else
      let row : HabitRow :=
        ⟨db.next_habit_id, user_id, habit_in.name, now, habit_in.is_active,
         habit_in.timer_to_notify_in_seconds, now, now⟩
      if habit_in.is_active then
        if enqueue_raises then
          CreateResult.raised db q "queue enqueue failure"
        else
          let (job, q1) := enqueue_job q "send_habit_notification" row.id
            row.timer_to_notify_in_seconds 1
          CreateResult.ok ⟨db.habits ++ [row], db.users, db.next_habit_id + 1⟩
            q1 ⟨row, some (some job.job_id)⟩
      else
        CreateResult.ok ⟨db.habits ++ [row], db.users, db.next_habit_id + 1⟩
          q ⟨row, none⟩

/-- The `HabitUpdate` DTO (src/schemas/habit_dto.py lines 49-52); `none`
means the field was not set in the request. -/
structure HabitUpdate where
  name : Option String
  is_active : Option Bool
  timer_to_notify_in_seconds : Option Nat
deriving DecidableEq, Repr

/-- Keys of `data_to_update.model_dump(exclude_unset=True)`. -/
def HabitUpdate.dumpKeys (u : HabitUpdate) : List String :=
  (if u.name.isSome then ["name"] else []) ++
  (if u.is_active.isSome then ["is_active"] else []) ++
  (if u.timer_to_notify_in_seconds.isSome
    then ["timer_to_notify_in_seconds"] else [])

/-- Applying the UPDATE ... VALUES of the set fields to a row. -/
def applyUpdate (u : HabitUpdate) (r : HabitRow) : HabitRow :=
  ⟨r.id, r.user_id, u.name.getD r.name, r.started_at,
   u.is_active.getD r.is_active,
   u.timer_to_notify_in_seconds.getD r.timer_to_notify_in_seconds,
   r.created_at, r.updated_at⟩

/-- Result of `HabitRepository.update`: `ok` returns the updated instance,
`notFound` is the Python-None not-found signal, `raised` an exception
propagating to the caller with the states left behind. -/
inductive UpdateResult where
  | ok (db : DB) (q : Queue) (habit : HabitObj)
  | notFound (db : DB) (q : Queue)
  | raised (db : DB) (q : Queue) (exn : String)
deriving DecidableEq, Repr

/-- `HabitRepository.update` (src/queries/habit_queries.py lines 141-191).
Order follows the source: empty payload short-circuits to a plain load;
the pre-update snapshot is loaded (None gives the not-found signal); then
`habit_before_update.job_id` is read — a fresh load carries no such
attribute, so this raises before the UPDATE statement or any queue call.
The remainder (reconciliation on the is_active flip, cancel swallowed on
failure, commit) is embedded faithfully after the read. -/
def HabitRepository.update (db : DB) (q : Queue) (user_id habit_id : Nat)
    (data : HabitUpdate) (abort_raises : Bool) : UpdateResult :=
  if data.dumpKeys.isEmpty then
    match select_by_id db user_id habit_id with
    | none => UpdateResult.notFound db q
    | some h => UpdateResult.ok db q h
  else
    match select_by_id db user_id habit_id with
    | none => UpdateResult.notFound db q
    | some before =>
      let was_active := before.row.is_active
      match getattr_job_id before with
      | Except.error e => UpdateResult.raised db q e
      | Except.ok job_id_before =>
        match compileUpdateValues data.dumpKeys with
        | Except.error e => UpdateResult.raised db q e
        | Except.ok _ =>
          let row1 := applyUpdate data before.row
          let db1 : DB :=
            ⟨db.habits.map (fun h =>
               if h.id == habit_id && h.user_id == user_id then row1 else h),
             db.users, db.next_habit_id⟩
          if !was_active && row1.is_active then
            let (job, q1) := enqueue_job q "send_habit_notification" row1.id
              row1.timer_to_notify_in_seconds 1
            UpdateResult.ok db1 q1 ⟨row1, some (some job.job_id)⟩
          else if was_active && !row1.is_active && pyTruthy job_id_before then
            if abort_raises then
              UpdateResult.ok db1 q ⟨row1, none⟩
            else
              UpdateResult.ok db1 (abort_job q (job_id_before.getD ""))
                ⟨row1, some none⟩
          else
            UpdateResult.ok db1 q ⟨row1, none⟩

/-- Result of `HabitRepository.delete`: `ok` carries the returned boolean,
`raised` an exception propagating with the states left behind. -/
inductive DeleteResult where
  | ok (db : DB) (q : Queue) (deleted : Bool)
  | raised (db : DB) (q : Queue) (exn : String)
deriving DecidableEq, Repr

/-- `HabitRepository.delete` (src/queries/habit_queries.py lines 194-219).
Order follows the source: scoped load (None returns False); then
`habit_to_delete.job_id` is read — a fresh load carries no such attribute,
so this raises before any cancel or DELETE.  The remainder (best-effort
abort, row deletion, commit, rowcount) is embedded faithfully after the
read. -/
def HabitRepository.delete (db : DB) (q : Queue) (user_id habit_id : Nat)
    (abort_raises : Bool) : DeleteResult :=
  match select_by_id db user_id habit_id with
  | none => DeleteResult.ok db q false
  | some habit =>
    match getattr_job_id habit with
    | Except.error e => DeleteResult.raised db q e
    | Except.ok jid =>
      let q1 :=
        if pyTruthy jid then
          if abort_raises then q else abort_job q (jid.getD "")
        else q
      let remaining := db.habits.filter
        (fun r => !(r.id == habit_id && r.user_id == user_id))
      DeleteResult.ok ⟨remaining, db.users, db.next_habit_id⟩ q1
        (decide (remaining.length < db.habits.length))

/-- Worker configuration (src/core/worker.py lines 14-15). -/
def MAX_TRIES : Nat := 3

/-- Worker configuration (src/core/worker.py lines 14-15). -/
def RETRY_DELAY_SECONDS : Nat := 15

/-- The rendered reminder text (src/core/worker.py lines 50-51),
simplified to ASCII; no claim depends on the exact wording. -/
def notificationText (h : HabitRow) : String :=
  " Heeeey!!! Time to " ++ h.name ++ "! I will text you again after " ++
    toString h.timer_to_notify_in_seconds

/-- Observable outcome of one `send_habit_notification` run: the committed
database, the queue, the messages handed to the Telegram sender, and the
returned status string. -/
structure WorkerRun where
  db : DB
  queue : Queue
  sent : List (Int × String)
  ret : String
deriving DecidableEq, Repr

/-- `send_habit_notification` (src/core/worker.py lines 28-86).  `sendRes`
is the boolean `send_message` returns (it catches everything and never
raises past its boundary); the source discards this value.  Control flow
follows the source: fresh load with the user eagerly joined; the guard
(habit exists, is_active, user present, truthy chat id) returns
"Notification stopped." with no effects; otherwise the message is sent,
the next interval job is enqueued (no job_try passed, so the spawned job
fires with the Python default of 1), and then
`update(Habit).values(job_id=...)` is executed — `job_id` is not a mapped
column, so compiling it raises, the session is dropped without commit, and
the except-branch retry logic runs: a retry job with `job_try + 1`
deferred `RETRY_DELAY_SECONDS` when `job_try < MAX_TRIES`, nothing
otherwise. -/
def send_habit_notification (db : DB) (q : Queue) (sendRes : Bool)
    (habit_id : Nat) (job_try : Nat) : WorkerRun :=
  match db.habits.find? (fun h => h.id == habit_id) with
  | none => ⟨db, q, [], "Notification stopped."⟩
  | some habit =>
    if habit.is_active then
      match db.users.find? (fun u => u.id == habit.user_id) with
      | none => ⟨db, q, [], "Notification stopped."⟩
      | some user =>
        if pyTruthyInt user.telegram_chat_id then
          let chat := user.telegram_chat_id.getD 0
          let sent := [(chat, notificationText habit)]
          let (next_job, q1) := enqueue_job q "send_habit_notification"
            habit.id habit.timer_to_notify_in_seconds 1
          match compileUpdateValues ["job_id"] with
          | Except.ok _ =>
            -- UPDATE compiled and committed: the values clause names no
            -- mapped column, so no persisted field changes
            ⟨db, q1, sent, "Notification processed."⟩
          | Except.error _ =>
            if job_try < MAX_TRIES then
              let (_, q2) := enqueue_job q1 "send_habit_notification"
                habit_id RETRY_DELAY_SECONDS (job_try + 1)
              ⟨db, q2, sent, "Notification processed."⟩
            else
              ⟨db, q1, sent, "Notification processed."⟩
        else
          ⟨db, q, [], "Notification stopped."⟩
    else
      ⟨db, q, [], "Notification stopped."⟩

/-- The negation of the worker guard (src/core/worker.py line 45): the
habit is missing, inactive, its user row is absent, or the chat id is not
truthy. -/
def notificationGuardBlocked (db : DB) (habit_id : Nat) : Bool :=
  match db.habits.find? (fun h => h.id == habit_id) with
  | none => true
  | some habit =>
    if habit.is_active then
      match db.users.find? (fun u => u.id == habit.user_id) with
      | none => true
      | some user => !pyTruthyInt user.telegram_chat_id
    else true

/-! Concrete states used by the closed theorems below. -/

/-- A user with a linked Telegram chat. -/
def user42 : UserRow := ⟨7, "u", "e", "p", true, some 42⟩

/-- An active habit owned by `user42`, interval 600 seconds. -/
def habit1 : HabitRow := ⟨1, 7, "run", 0, true, 600, 0, 0⟩

/-- Database holding `habit1` and `user42`. -/
def db0 : DB := ⟨[habit1], [user42], 2⟩

/-- Database holding only `user42`, no habits. -/
def dbU : DB := ⟨[], [user42], 1⟩

/-- The empty queue. -/
def q0 : Queue := ⟨[], 0⟩

/-- `job_id` is not a mapped column of the Habit model, so compiling the
worker's UPDATE statement always raises. -/
theorem compileUpdateValues_job_id :
    compileUpdateValues ["job_id"] =
      Except.error "CompileError: Unconsumed column names" := by
  rfl

/-- Claim C1 fails on the code: the Habit model has no job-reference
column, so after a fired-job transition on an active habit the habit is
still active but a fresh load of it carries no job reference (reading one
raises AttributeError).  The pending-job reference cannot be non-empty for
any active stored habit. -/
theorem c1_invariant_violated_after_firing :
    (send_habit_notification db0 q0 false 1 1).db = db0 ∧
    select_by_id (send_habit_notification db0 q0 false 1 1).db 7 1 =
      some ⟨habit1, none⟩ ∧
    habit1.is_active = true ∧
    (HabitObj.mk habit1 none).job_id_attr = none ∧
    getattr_job_id ⟨habit1, none⟩ = Except.error "AttributeError: job_id" := by
  refine ⟨rfl, rfl, rfl, rfl, rfl⟩

/-- Claim C2 fails on the code: the handler discards the value
`send_message` returns, so even at the `MAX_TRIES`-th attempt of an
always-failing dispatcher it runs the nominal-success path and enqueues a
fresh interval-deferred job (attempt 1) — a further job is enqueued for
the habit after the final attempt. -/
theorem c2_job_enqueued_after_final_attempt :
    (send_habit_notification db0 q0 false 1 MAX_TRIES).queue.jobs =
      [⟨"job-0", "send_habit_notification", 1, 600, 1⟩] ∧
    (send_habit_notification db0 q0 false 1 MAX_TRIES).queue.jobs ≠ [] := by
  refine ⟨rfl, by decide⟩

/-- Claim C3 fails on the code: an update deactivating an existing active
habit raises AttributeError at the read of `habit_before_update.job_id`
(the model has no such attribute), before any cancel call; the queue is
untouched and nothing is cleared. -/
theorem c3_deactivation_raises_before_cancel :
    HabitRepository.update db0 q0 7 1 ⟨none, some false, none⟩ false =
      UpdateResult.raised db0 q0 "AttributeError: job_id" := by
  rfl

/-- Claim C4, counterexample: after a fired job whose delivery fails at
attempt 1, the retry job `job-1` (attempt 2, deferred 15 s) is enqueued,
but the habit's stored job reference is not updated to it — a fresh load
of the habit carries no job reference at all. -/
theorem c4_counterexample_reference_not_updated :
    (send_habit_notification db0 q0 false 1 1).queue.jobs.getLast? =
      some ⟨"job-1", "send_habit_notification", 1, RETRY_DELAY_SECONDS, 2⟩ ∧
    select_by_id (send_habit_notification db0 q0 false 1 1).db 7 1 =
      some ⟨habit1, none⟩ ∧
    (HabitObj.mk habit1 none).job_id_attr ≠ some (some "job-1") := by
  refine ⟨rfl, rfl, by decide⟩

/-- Claim C4, amended: for every fired job that passes the guard with
`attempt_number < MAX_TRIES` (whatever the dispatcher reports), the
handler re-enqueues the same notification with `attempt_number + 1`
deferred by `RETRY_DELAY_SECONDS` — after the interval job already
enqueued on the ignored-failure path — and leaves the stored habit state,
job reference included, unchanged. -/
theorem c4_amended_retry_enqueued_reference_unchanged
    (db : DB) (q : Queue) (sendRes : Bool) (habit : HabitRow)
    (user : UserRow) (jt : Nat)
    (hfind : db.habits.find? (fun h => h.id == habit.id) = some habit)
    (hact : habit.is_active = true)
    (huser : db.users.find? (fun u => u.id == habit.user_id) = some user)
    (hchat : pyTruthyInt user.telegram_chat_id = true)
    (hjt : jt < MAX_TRIES) :
    (send_habit_notification db q sendRes habit.id jt).db = db ∧
    (send_habit_notification db q sendRes habit.id jt).queue.jobs =
      q.jobs ++
        [⟨"job-" ++ toString q.next_id, "send_habit_notification", habit.id,
          habit.timer_to_notify_in_seconds, 1⟩,
         ⟨"job-" ++ toString (q.next_id + 1), "send_habit_notification",
          habit.id, RETRY_DELAY_SECONDS, jt + 1⟩] := by
  unfold send_habit_notification
  simp [hfind, hact, huser, hchat, compileUpdateValues_job_id, enqueue_job,
    hjt]

/-- Claim C4 witness: the amended statement at the concrete state `db0`,
attempt 1 of a failing delivery. -/
theorem c4_amended_witness :
    (send_habit_notification db0 q0 false habit1.id 1).db = db0 ∧
    (send_habit_notification db0 q0 false habit1.id 1).queue.jobs =
      q0.jobs ++
        [⟨"job-" ++ toString q0.next_id, "send_habit_notification",
          habit1.id, habit1.timer_to_notify_in_seconds, 1⟩,
         ⟨"job-" ++ toString (q0.next_id + 1), "send_habit_notification",
          habit1.id, RETRY_DELAY_SECONDS, 1 + 1⟩] :=
  c4_amended_retry_enqueued_reference_unchanged db0 q0 false habit1 user42 1
    rfl rfl rfl rfl (by decide)

/-- Claim C5: a fired job whose habit is missing, inactive, or whose user
is absent or has no truthy chat id terminates with "Notification
stopped.", no storage write, no message, and no enqueue. -/
theorem c5_guard_blocks_all_effects
    (db : DB) (q : Queue) (sendRes : Bool) (hid jt : Nat)
    (h : notificationGuardBlocked db hid = true) :
    send_habit_notification db q sendRes hid jt =
      ⟨db, q, [], "Notification stopped."⟩ := by
  unfold send_habit_notification
  unfold notificationGuardBlocked at h
  cases hf : db.habits.find? (fun hb => hb.id == hid) with
  | none => simp [hf]
  | some habit =>
    simp only [hf] at h ⊢
    by_cases hact : habit.is_active = true
    · simp only [hact, if_true] at h ⊢
      cases hu : db.users.find? (fun u => u.id == habit.user_id) with
      | none => simp [hu]
      | some user =>
        simp only [hu] at h ⊢
        simp only [Bool.not_eq_true'] at h
        simp [h]
    · simp [hact]

/-- Claim C5 witness: the guard property at a deactivated stored habit. -/
theorem c5_guard_witness :
    notificationGuardBlocked ⟨[⟨1, 7, "run", 0, false, 600, 0, 0⟩],
      [user42], 2⟩ 1 = true ∧
    send_habit_notification ⟨[⟨1, 7, "run", 0, false, 600, 0, 0⟩],
      [user42], 2⟩ q0 true 1 1 =
      ⟨⟨[⟨1, 7, "run", 0, false, 600, 0, 0⟩], [user42], 2⟩, q0, [],
        "Notification stopped."⟩ :=
  ⟨rfl, c5_guard_blocks_all_effects ⟨[⟨1, 7, "run", 0, false, 600, 0, 0⟩],
    [user42], 2⟩ q0 true 1 1 rfl⟩

/-- Claim C6 fails on the code: on a fired job whose dispatch succeeds at
attempt 1, the handler enqueues the interval job but then raises compiling
`update(Habit).values(job_id=...)` — nothing is persisted and the retry
branch enqueues a second, 15-second job, so two jobs are enqueued, not
exactly one, and the stored state is unchanged. -/
theorem c6_success_double_enqueue_nothing_persisted :
    (send_habit_notification db0 q0 true 1 1).queue.jobs =
      [⟨"job-0", "send_habit_notification", 1, 600, 1⟩,
       ⟨"job-1", "send_habit_notification", 1, RETRY_DELAY_SECONDS, 2⟩] ∧
    (send_habit_notification db0 q0 true 1 1).db = db0 := by
  refine ⟨rfl, rfl⟩

/-- Claim C7 fails on the code: every creation request raises TypeError at
`Habit(**habit_in.model_dump(), user_id=...)`, because `model_dump()`
keeps the `timer_in_minutes` DTO field and the Habit class has no such
attribute.  No job is enqueued and no row is persisted, active or not. -/
theorem c7_create_raises_typeerror :
    HabitRepository.create dbU q0 0 7 (mkHabitCreate "run" true 10) false =
      CreateResult.raised dbU q0
        "TypeError: invalid keyword argument for Habit" ∧
    HabitRepository.create dbU q0 0 7 (mkHabitCreate "walk" false 5) false =
      CreateResult.raised dbU q0
        "TypeError: invalid keyword argument for Habit" := by
  refine ⟨rfl, rfl⟩

/-- Claim C8 fails on the code: the enqueue call inside create is
unreachable — the constructor TypeError fires first, before the try block,
so a failing queue never even surfaces; the propagated failure is the
TypeError, the queue is untouched and no row is persisted. -/
theorem c8_enqueue_unreachable_in_create :
    HabitRepository.create dbU q0 0 7 (mkHabitCreate "run" true 10) true =
      CreateResult.raised dbU q0
        "TypeError: invalid keyword argument for Habit" := by
  rfl

/-- Claim C9: an update or delete scoped to a (habit id, owner id) pair
matching no stored habit returns the not-found signal (Python None /
False) with no queue operation and no storage change. -/
theorem c9_not_found_no_job_side_effects
    (db : DB) (q : Queue) (uid hid : Nat) (data : HabitUpdate) (ar : Bool)
    (h : select_by_id db uid hid = none) :
    HabitRepository.update db q uid hid data ar =
      UpdateResult.notFound db q ∧
    HabitRepository.delete db q uid hid ar = DeleteResult.ok db q false := by
  constructor
  · unfold HabitRepository.update
    by_cases hd : data.dumpKeys.isEmpty = true
    · rw [if_pos hd, h]
    · rw [if_neg hd, h]
  · unfold HabitRepository.delete
    rw [h]

/-- Claim C9 witness: update and delete at a habit id absent from `db0`. -/
theorem c9_not_found_witness :
    HabitRepository.update db0 q0 7 99 ⟨some "x", none, none⟩ false =
      UpdateResult.notFound db0 q0 ∧
    HabitRepository.delete db0 q0 7 99 false =
      DeleteResult.ok db0 q0 false :=
  c9_not_found_no_job_side_effects db0 q0 7 99 ⟨some "x", none, none⟩ false
    rfl

/-- Claim C10: the persisted Habit record consists only of the declared
mapped columns — there is no job-reference column — so every habit loaded
from storage in a fresh session carries no job reference. -/
theorem c10_no_job_reference_column :
    habitMappedColumns.contains "job_id" = false ∧
    ∀ (db : DB) (uid hid : Nat) (obj : HabitObj),
      select_by_id db uid hid = some obj → obj.job_id_attr = none := by
  refine ⟨by decide, ?_⟩
  intro db uid hid obj h
  unfold select_by_id at h
  split at h
  · exact Option.noConfusion h
  · injection h with h
    subst h
    rfl

/-- Claim C10 witness: the fresh load of `habit1` from `db0` carries no
job reference. -/
theorem c10_no_job_reference_witness :
    select_by_id db0 7 1 = some ⟨habit1, none⟩ ∧
    (HabitObj.mk habit1 none).job_id_attr = none :=
  ⟨rfl, c10_no_job_reference_column.2 db0 7 1 ⟨habit1, none⟩ rfl⟩

end LiveTrack
